import Mathlib

/-!
Verification of the SDF blot system of this repository: the `SDFBlot` class
(field state, smooth-minimum primitives, distance field, rasterizer,
exponential-smoothing update) and the `BlotAnimator` class (animation queue,
easing functions, move/morph/breathing sequences).

JavaScript numbers are modelled as real numbers.  `Date.now()` is modelled by
the `now` field of the animator state, advanced by `deltaTime` on every
`update` call (the wall clock keeps running whether or not a sequence is
active).  `window.innerWidth` / `window.innerHeight` and the outcome of the
`Math.random() > 0.5` draw inside `createMoveSequence` are modelled as the
`innerWidth`, `innerHeight` and `nextSide` fields of the animator state.
JavaScript animation-sequence objects are dynamic records whose absent fields
read as `undefined`; they are modelled by one flat structure whose unused
fields keep the neutral defaults of `emptySeq` (an absent `easing` string is
the empty string, which the easing lookup sends to the `linear` fallback,
exactly like `cs.easing || 'linear'`; an absent `continuous` flag is `false`,
matching the falsiness of `undefined`).
-/

noncomputable section

/-- State of one `SDFBlot` instance (constructor of `SDFBlot`, part_001).
`breathingIntensity` is absent until the animator first writes it; it is
modelled with initial value 0 (no code of the repository ever reads it). -/
structure SDFBlot where
  x : ℝ
  y : ℝ
  targetX : ℝ
  targetY : ℝ
  time : ℝ
  state : String
  animationSpeed : ℝ
  morphFactor : ℝ
  targetMorphFactor : ℝ
  breathingPhase : ℝ
  pulsePhase : ℝ
  wigglePhase : ℝ
  breathingIntensity : ℝ

/-- `new SDFBlot(canvas, initialX, initialY)` without the canvas plumbing. -/
def mkBlot (initialX initialY : ℝ) : SDFBlot :=
  { x := initialX, y := initialY, targetX := initialX, targetY := initialY,
    time := 0, state := "idle", animationSpeed := 0.02,
    morphFactor := 0, targetMorphFactor := 0,
    breathingPhase := 0, pulsePhase := 0, wigglePhase := 0,
    breathingIntensity := 0 }

/-- `SDFBlot.sminQuadratic(a, b, k)`: quadratic polynomial smooth minimum. -/
def sminQuadratic (a b k : ℝ) : ℝ :=
  let k := k * 4
  let h := max (k - |a - b|) 0 / k
  min a b - h * h * k * (1 / 4)

/-- `SDFBlot.sminCubic(a, b, k)`: cubic polynomial smooth minimum. -/
def sminCubic (a b k : ℝ) : ℝ :=
  let k := k * 6
  let h := max (k - |a - b|) 0 / k
  min a b - h * h * h * k * (1 / 6)

/-- `SDFBlot.sminCircular(a, b, k)`: circular smooth minimum. -/
def sminCircular (a b k : ℝ) : ℝ :=
  let k := k * (1 / (1 - Real.sqrt 0.5))
  let h := max (k - |a - b|) 0 / k
  min a b - k * 0.5 * (1 + h - Real.sqrt (1 - h * (h - 2)))

/-- `SDFBlot.sdCircle(px, py, cx, cy, radius)`. -/
def sdCircle (px py cx cy radius : ℝ) : ℝ :=
  let dx := px - cx
  let dy := py - cy
  Real.sqrt (dx * dx + dy * dy) - radius

/-- `SDFBlot.sdEllipse(px, py, cx, cy, rx, ry)`: approximate ellipse SDF. -/
def sdEllipse (px py cx cy rx ry : ℝ) : ℝ :=
  let dx := |px - cx|
  let dy := |py - cy|
  let a := rx
  let b := ry
  let x := dx / a
  let y := dy / b
  (a * b) * (Real.sqrt (x * x + y * y) - 1) / Real.sqrt (a * a * y * y + b * b * x * x)

/-- `SDFBlot.createBlotSDF(px, py, time, morphFactor)`: the combined field
evaluator (instance state supplies `this.x`, `this.y`, `this.breathingPhase`). -/
def createBlotSDF (self : SDFBlot) (px py time morphFactor : ℝ) : ℝ :=
  let breathingScale := 1 + 0.1 * Real.sin (time * 2 + self.breathingPhase)
  let bodyRadius := 25 * breathingScale
  let bodyHeight := 30 * breathingScale
  let mainBody := sdEllipse px py self.x self.y bodyRadius bodyHeight
  let blob2X := self.x + 15 * Real.cos (time * 1.5)
  let blob2Y := self.y + 10 * Real.sin (time * 1.2)
  let blob2Radius := 18 + 5 * Real.sin (time * 3)
  let secondaryBlob := sdCircle px py blob2X blob2Y blob2Radius
  let blob3X := self.x - 12 * Real.cos (time * 0.8)
  let blob3Y := self.y - 8 * Real.sin (time * 1.8)
  let blob3Radius := 12 + 3 * Real.cos (time * 2.5)
  let tertiaryBlob := sdCircle px py blob3X blob3Y blob3Radius
  let combined := sminCubic mainBody secondaryBlob 15
  let combined := sminQuadratic combined tertiaryBlob 12
  let combined :=
    if 0 < morphFactor then
      let menuRadius := 45 + 10 * morphFactor
      let menuShape := sdCircle px py self.x self.y menuRadius
      combined * (1 - morphFactor) + menuShape * morphFactor
    else combined
  let detailNoise := 2 * Real.sin (px * 0.1 + time) * Real.cos (py * 0.1 + time * 1.3)
  combined + detailNoise * 0.5

/-- One pixel of `SDFBlot.renderBlot()`: the RGBA value written at `(x, y)`
(inside: base color #2c1810 scaled by the falloff intensity, alpha 255;
outside: all channels left at 0, alpha 0). -/
def renderPixel (self : SDFBlot) (x y : ℝ) : ℤ × ℤ × ℤ × ℤ :=
  let distance := createBlotSDF self x y self.time self.morphFactor
  if distance < 0 then
    let intensity := max 0 (1 + distance / 20)
    (⌊44 * intensity⌋, ⌊24 * intensity⌋, ⌊16 * intensity⌋, 255)
  else (0, 0, 0, 0)

/-- `SDFBlot.update(deltaTime)`: time accumulation, exponential smoothing of
position (rate 0.08) and morph factor (rate 0.1), phase accumulators. -/
def SDFBlot.update (self : SDFBlot) (deltaTime : ℝ) : SDFBlot :=
  { self with
    time := self.time + deltaTime * self.animationSpeed
    x := self.x + (self.targetX - self.x) * 0.08
    y := self.y + (self.targetY - self.y) * 0.08
    morphFactor := self.morphFactor + (self.targetMorphFactor - self.morphFactor) * 0.1
    breathingPhase := self.breathingPhase + deltaTime * 0.001
    pulsePhase := self.pulsePhase + deltaTime * 0.002
    wigglePhase := self.wigglePhase + deltaTime * 0.0015 }

/-- `SDFBlot.setState(newState)`: switch on `'idle' | 'active' |
'menu-expanded'`; any other string falls through the switch and leaves
`targetMorphFactor` unchanged. -/
def SDFBlot.setState (self : SDFBlot) (newState : String) : SDFBlot :=
  let self := { self with state := newState }
  if newState = "idle" then { self with targetMorphFactor := 0 }
  else if newState = "active" then { self with targetMorphFactor := 0.3 }
  else if newState = "menu-expanded" then { self with targetMorphFactor := 1 }
  else self

/-- `SDFBlot.moveTo(x, y)`. -/
def SDFBlot.moveTo (self : SDFBlot) (x y : ℝ) : SDFBlot :=
  { self with targetX := x, targetY := y }

/-- One animation-sequence object of `BlotAnimator` (a dynamic JS record;
see the module comment for how absent fields are modelled). -/
structure AnimSequence where
  type : String
  waypoints : List (ℝ × ℝ)
  duration : ℝ
  easing : String
  startTime : ℝ
  fromValue : ℝ
  toValue : ℝ
  intensity : ℝ
  frequency : ℝ
  continuous : Bool
  priority : ℝ

/-- The all-fields-absent sequence record. -/
def emptySeq : AnimSequence :=
  { type := "", waypoints := [], duration := 0, easing := "", startTime := 0,
    fromValue := 0, toValue := 0, intensity := 0, frequency := 0,
    continuous := false, priority := 0 }

/-- `this.easingFunctions[name || 'linear'](t)`.  The four closed-form
variants are transcribed directly; an absent or unknown name falls back to
the identity, matching the `|| 'linear'` lookup for the sequences this
module constructs (every constructed sequence uses `easeInOut`, `easeOut`
or the absent-field `linear` fallback). -/
def easingFunctions (name : String) (t : ℝ) : ℝ :=
  if name = "easeInOut" then
    (if t < 0.5 then 2 * t * t else -1 + (4 - 2 * t) * t)
  else if name = "easeOut" then 1 - (1 - t) ^ 3
  else if name = "easeIn" then t * t * t
  else if name = "elastic" then
    (if t = 0 ∨ t = 1 then t
     else
       let p : ℝ := 0.3
       let s := p / 4
       (2 : ℝ) ^ (-10 * t) * Real.sin ((t - s) * (2 * Real.pi) / p) + 1)
  else t

/-- One entry of `this.animationPresets`. -/
structure AnimationPreset where
  breathingIntensity : ℝ
  wiggleAmount : ℝ
  pulseFrequency : ℝ

/-- `this.animationPresets[name]` (absent key reads as `none`). -/
def animationPresets (name : String) : Option AnimationPreset :=
  if name = "idle" then some ⟨0.05, 2, 0.8⟩
  else if name = "active" then some ⟨0.08, 4, 1.2⟩
  else if name = "menuExpanded" then some ⟨0.03, 1, 0.6⟩
  else none

/-- The `morphValues` table of `createMorphSequence`, including the
`|| 0` fallback for keys outside the table. -/
def morphValues (s : String) : ℝ :=
  if s = "idle" then 0
  else if s = "active" then 0.3
  else if s = "menuExpanded" then 1
  else 0

/-- State of one `BlotAnimator` (constructor plus the modelled environment:
wall clock `now`, viewport size, next `Math.random() > 0.5` outcome). -/
structure BlotAnimator where
  blot : SDFBlot
  animationQueue : List AnimSequence
  isAnimating : Bool
  currentSequence : Option AnimSequence
  now : ℝ
  innerWidth : ℝ
  innerHeight : ℝ
  nextSide : Bool

/-- `new BlotAnimator(sdfBlot)` with the modelled environment fields. -/
def mkAnimator (sdfBlot : SDFBlot) (w h : ℝ) (side : Bool) : BlotAnimator :=
  { blot := sdfBlot, animationQueue := [], isAnimating := false,
    currentSequence := none, now := 0,
    innerWidth := w, innerHeight := h, nextSide := side }

/-- `Math.atan2(y, x)`. -/
def atan2 (y x : ℝ) : ℝ :=
  if 0 < x then Real.arctan (y / x)
  else if x < 0 then
    (if 0 ≤ y then Real.arctan (y / x) + Real.pi
     else Real.arctan (y / x) - Real.pi)
  else
    (if 0 < y then Real.pi / 2
     else if y < 0 then -(Real.pi / 2)
     else 0)

/-- `BlotAnimator.createMoveSequence(targetX, targetY, avoidX, avoidY,
duration)`: the start waypoint, an optional mouse-avoidance detour waypoint
(side chosen by the modelled random draw `nextSide`, clamped 60 units inside
the modelled viewport), and the target waypoint. -/
def createMoveSequence (self : BlotAnimator)
    (targetX targetY avoidX avoidY duration : ℝ) : AnimSequence :=
  let startX := self.blot.x
  let startY := self.blot.y
  let directDistance := Real.sqrt ((targetX - startX) ^ 2 + (targetY - startY) ^ 2)
  let mouseDistance := Real.sqrt ((avoidX - startX) ^ 2 + (avoidY - startY) ^ 2)
  let waypoints : List (ℝ × ℝ) := [(startX, startY)]
  let waypoints :=
    if mouseDistance < 100 ∧ 50 < directDistance then
      let avoidRadius : ℝ := 120
      let angle := atan2 (avoidY - startY) (avoidX - startX)
      let perpAngle := angle + (if self.nextSide then Real.pi / 2 else -(Real.pi / 2))
      let waypointX := avoidX + Real.cos perpAngle * avoidRadius
      let waypointY := avoidY + Real.sin perpAngle * avoidRadius
      let boundedWaypointX := max 60 (min (self.innerWidth - 60) waypointX)
      let boundedWaypointY := max 60 (min (self.innerHeight - 60) waypointY)
      waypoints ++ [(boundedWaypointX, boundedWaypointY)]
    else waypoints
  let waypoints := waypoints ++ [(targetX, targetY)]
  { emptySeq with
    type := "move", waypoints := waypoints, duration := duration,
    easing := "easeInOut", startTime := 0 }

/-- `BlotAnimator.createMorphSequence(fromState, toState, duration)`. -/
def createMorphSequence (fromState toState : String) (duration : ℝ) : AnimSequence :=
  { emptySeq with
    type := "morph",
    fromValue := morphValues fromState,
    toValue := morphValues toState,
    duration := duration, easing := "easeOut", startTime := 0 }

/-- `BlotAnimator.createBreathingSequence(intensity, frequency)`. -/
def createBreathingSequence (intensity frequency : ℝ) : AnimSequence :=
  { emptySeq with
    type := "breathing", intensity := intensity, frequency := frequency,
    continuous := true }

/-- `BlotAnimator.playNextAnimation()`: shift the queue head into the active
slot (stamping `startTime = Date.now()`), or clear `isAnimating`. -/
def playNextAnimation (self : BlotAnimator) : BlotAnimator :=
  match self.animationQueue with
  | [] => { self with isAnimating := false }
  | s :: rest =>
      { self with
        currentSequence := some { s with startTime := self.now }
        animationQueue := rest
        isAnimating := true }

/-- `BlotAnimator.queueAnimation(sequence, priority)`: tag the priority,
push, re-sort the whole queue descending by priority, and promote
immediately when nothing is animating.  `Array.prototype.sort` with
comparator `(a, b) => b.priority - a.priority` is a stable descending sort
(ECMAScript 2019), which is what `List.insertionSort` with the reflexive
relation below computes. -/
def queueAnimation (self : BlotAnimator) (sequence : AnimSequence) (priority : ℝ) :
    BlotAnimator :=
  let sequence := { sequence with priority := priority }
  let self :=
    { self with
      animationQueue :=
        List.insertionSort (fun s t => t.priority ≤ s.priority)
          (self.animationQueue ++ [sequence]) }
  if self.isAnimating = false then playNextAnimation self else self

/-- `BlotAnimator.updateMoveAnimation(progress)`: waypoint-segment
interpolation.  Negative indices and out-of-range reads cannot occur for the
progress values the caller produces; list reads use a `(0, 0)` default. -/
def updateMoveAnimation (cs : AnimSequence) (blot : SDFBlot) (progress : ℝ) : SDFBlot :=
  let waypoints := cs.waypoints
  if waypoints.length < 2 then blot
  else
    let segmentCount : ℝ := (waypoints.length : ℝ) - 1
    let segmentProgress := progress * segmentCount
    let segmentIndex : ℤ := ⌊segmentProgress⌋
    let localProgress := segmentProgress - (segmentIndex : ℝ)
    if segmentCount ≤ (segmentIndex : ℝ) then
      let final := waypoints.getLastD (0, 0)
      blot.moveTo final.1 final.2
    else
      let current := waypoints.getD segmentIndex.toNat (0, 0)
      let next := waypoints.getD (segmentIndex.toNat + 1) (0, 0)
      let x := current.1 + (next.1 - current.1) * localProgress
      let y := current.2 + (next.2 - current.2) * localProgress
      blot.moveTo x y

/-- `BlotAnimator.updateMorphAnimation(progress)`: writes the interpolated
value directly into the field's current morph factor. -/
def updateMorphAnimation (cs : AnimSequence) (blot : SDFBlot) (progress : ℝ) : SDFBlot :=
  let «from» := cs.fromValue
  let «to» := cs.toValue
  let morphValue := «from» + («to» - «from») * progress
  { blot with morphFactor := morphValue }

/-- `BlotAnimator.updateBreathingAnimation(deltaTime)`: republishes the
configured intensity onto the field. -/
def updateBreathingAnimation (cs : AnimSequence) (blot : SDFBlot) : SDFBlot :=
  { blot with breathingIntensity := cs.intensity }

/-- `BlotAnimator.update(deltaTime)`.  The wall clock advances by
`deltaTime`; a breathing sequence has no `duration` field, and its
`elapsed / duration` progress is never `≥ 1`-retired because `continuous`
short-circuits the check (in JS the NaN comparison is false; here division
by the absent duration 0 yields progress 0 — same non-retirement outcome). -/
def BlotAnimator.update (self : BlotAnimator) (deltaTime : ℝ) : BlotAnimator :=
  let self := { self with now := self.now + deltaTime }
  match self.currentSequence with
  | none => self
  | some cs =>
      let elapsed := self.now - cs.startTime
      let progress := min (elapsed / cs.duration) 1
      let easedProgress := easingFunctions cs.easing progress
      let self :=
        if cs.type = "move" then
          { self with blot := updateMoveAnimation cs self.blot easedProgress }
        else if cs.type = "morph" then
          { self with blot := updateMorphAnimation cs self.blot easedProgress }
        else if cs.type = "breathing" then
          { self with blot := updateBreathingAnimation cs self.blot }
        else self
      if 1 ≤ progress ∧ cs.continuous = false then
        playNextAnimation { self with currentSequence := none }
      else self

/-- `BlotAnimator.transitionToState(newState, targetX, targetY, avoidX,
avoidY)`: queue a morph (priority 10), an optional move (priority 9), update
the blot's mode synchronously, then queue the preset breathing sequence
(priority 1). -/
def transitionToState (self : BlotAnimator) (newState : String)
    (targetX targetY : Option ℝ) (avoidX avoidY : ℝ) : BlotAnimator :=
  let currentState := self.blot.state
  let morphSeq := createMorphSequence currentState newState 600
  let self := queueAnimation self morphSeq 10
  let self :=
    match targetX, targetY with
    | some tx, some ty =>
        queueAnimation self (createMoveSequence self tx ty avoidX avoidY 800) 9
    | _, _ => self
  let self := { self with blot := self.blot.setState newState }
  match animationPresets newState with
  | some preset =>
      queueAnimation self
        (createBreathingSequence preset.breathingIntensity preset.pulseFrequency) 1
  | none => self

/-- `BlotAnimator.emergencyStop()`. -/
def emergencyStop (self : BlotAnimator) : BlotAnimator :=
  { self with animationQueue := [], currentSequence := none, isAnimating := false }

/-- One frame of the external driver: `Sequencer.update(deltaTime)` followed
by `ShapeField.update(deltaTime)`. -/
def combinedTick (dt : ℝ) (a : BlotAnimator) : BlotAnimator :=
  let a := a.update dt
  { a with blot := a.blot.update dt }

/-- `n` iterations of `ShapeField.update` with a fixed `deltaTime`. -/
def fieldIter (dt : ℝ) (n : ℕ) (b : SDFBlot) : SDFBlot :=
  (fun c => c.update dt)^[n] b

/-- An interleaving step on the field alone: a `setState` call or an
`update` tick. -/
inductive FieldOp where
  | setMode (s : String)
  | tick (dt : ℝ)

/-- Apply one `FieldOp`. -/
def applyFieldOp (b : SDFBlot) (op : FieldOp) : SDFBlot :=
  match op with
  | FieldOp.setMode s => b.setState s
  | FieldOp.tick dt => b.update dt

/-- Apply a whole interleaving of `setState` calls and `update` ticks. -/
def applyFieldOps (b : SDFBlot) (ops : List FieldOp) : SDFBlot :=
  ops.foldl applyFieldOp b

/-- An external event on the animator: an `update` tick or a
`queueAnimation` call. -/
inductive AnimOp where
  | tick (dt : ℝ)
  | enq (s : AnimSequence) (p : ℝ)

/-- Apply one `AnimOp`. -/
def applyAnimOp (a : BlotAnimator) (op : AnimOp) : BlotAnimator :=
  match op with
  | AnimOp.tick dt => a.update dt
  | AnimOp.enq s p => queueAnimation a s p

/-- Apply a sequence of animator events. -/
def applyAnimOps (a : BlotAnimator) (ops : List AnimOp) : BlotAnimator :=
  ops.foldl applyAnimOp a

/-! Concrete states used by the individual claims. -/

/-- A fresh animator over a fresh blot at the origin, 800×600 viewport. -/
def animBase : BlotAnimator := mkAnimator (mkBlot 0 0) 800 600 true

/-- C1 scenario: field at (100,100), morph 0, mode idle. -/
def animC1 : BlotAnimator := mkAnimator (mkBlot 100 100) 800 600 true

/-- C1 scenario after `transitionToState("menuExpanded", 300, 300, 0, 0)`. -/
def animC1x : BlotAnimator :=
  transitionToState animC1 "menuExpanded" (some 300) (some 300) 0 0

/-- C1 scenario after two further 1000 ms frames (morph and move sequences
both expired and retired). -/
def animC1y : BlotAnimator := combinedTick 1000 (combinedTick 1000 animC1x)

/-- A generic morph sequence used for the queue-order traces. -/
def morphSeqOf (d tv : ℝ) : AnimSequence :=
  { emptySeq with type := "morph", duration := d, toValue := tv }

/-- C2 trace: enqueue priorities 5, 10, 1 in that order. -/
def c2e3 : BlotAnimator :=
  queueAnimation (queueAnimation (queueAnimation animBase (morphSeqOf 100 1) 5)
    (morphSeqOf 100 2) 10) (morphSeqOf 100 3) 1

/-- C2 trace: first drain step. -/
def c2u1 : BlotAnimator := c2e3.update 200

/-- C2 trace: second drain step. -/
def c2u2 : BlotAnimator := c2u1.update 200

/-- C2 FIFO trace: a priority-7 filler then two priority-5 sequences. -/
def c2g3 : BlotAnimator :=
  queueAnimation (queueAnimation (queueAnimation animBase (morphSeqOf 100 9) 7)
    (morphSeqOf 100 1) 5) (morphSeqOf 100 2) 5

/-- C2 FIFO trace: first drain step. -/
def c2w1 : BlotAnimator := c2g3.update 200

/-- C2 FIFO trace: second drain step. -/
def c2w2 : BlotAnimator := c2w1.update 200

/-- C5 witness blot: distinct start and target values. -/
def blotC5 : SDFBlot :=
  { mkBlot 0 0 with targetX := 1, targetY := 2, targetMorphFactor := 1 }

/-- C6 animator: blot at the origin, parametrized viewport and random side. -/
def animC6 (w h : ℝ) (side : Bool) : BlotAnimator := mkAnimator (mkBlot 0 0) w h side

/-- C6 move sequence: target (200,0), avoid (50,0). -/
def seqC6 (w h : ℝ) (side : Bool) : AnimSequence :=
  createMoveSequence (animC6 w h side) 200 0 50 0 1000

/-- C7 counterexample: a move sequence with a single waypoint. -/
def moveSeqC7 : AnimSequence :=
  { emptySeq with
    type := "move",
    waypoints := [(5, 7)],
    duration := 1000,
    easing := "easeInOut" }

/-- C7 witness: a two-waypoint move sequence. -/
def moveSeqC7b : AnimSequence :=
  { emptySeq with
    type := "move",
    waypoints := [(0, 0), (5, 7)],
    duration := 1000,
    easing := "easeInOut" }

/-- C9/C10: a breathing sequence from the factory. -/
def breathC9 : AnimSequence := createBreathingSequence 0.05 0.8

/-- C9/C10: an animator whose active sequence is the breathing sequence. -/
def animC9 : BlotAnimator := queueAnimation animBase breathC9 1

/-- C9/C10: the breathing sequence as it sits in the active slot (priority
tagged by `queueAnimation`; its `startTime` 0 is unchanged by activation). -/
def breathC9q : AnimSequence := { breathC9 with priority := 1 }

/-- C2: the priority-5 sequence after tagging. -/
def mq5 : AnimSequence := { morphSeqOf 100 1 with priority := 5 }

/-- C2: the priority-10 sequence after tagging. -/
def mq10 : AnimSequence := { morphSeqOf 100 2 with priority := 10 }

/-- C2: the priority-1 sequence after tagging. -/
def mq1 : AnimSequence := { morphSeqOf 100 3 with priority := 1 }

/-- C2 FIFO trace: the priority-7 filler after tagging. -/
def mqFill : AnimSequence := { morphSeqOf 100 9 with priority := 7 }

/-- C2 FIFO trace: the first priority-5 sequence after tagging. -/
def mqA : AnimSequence := { morphSeqOf 100 1 with priority := 5 }

/-- C2 FIFO trace: the second priority-5 sequence after tagging. -/
def mqB : AnimSequence := { morphSeqOf 100 2 with priority := 5 }

/-- C1: the morph sequence queued by the transition (priority 10). -/
def morphC1 : AnimSequence :=
  { emptySeq with
    type := "morph", fromValue := 0, toValue := 1,
    duration := 600, easing := "easeOut", priority := 10 }

/-- C1: the move sequence queued by the transition (priority 9; the avoid
point (0,0) is more than 100 units from the start, so no detour waypoint). -/
def moveC1 : AnimSequence :=
  { emptySeq with
    type := "move", waypoints := [(100, 100), (300, 300)],
    duration := 800, easing := "easeInOut", priority := 9 }

/-- C1: the breathing sequence queued by the transition (priority 1,
`menuExpanded` preset). -/
def breathC1 : AnimSequence :=
  { emptySeq with
    type := "breathing", intensity := 0.03, frequency := 0.6,
    continuous := true, priority := 1 }

/-- C1: the animator state right after the transition call. -/
def animC1E : BlotAnimator :=
  { blot := { mkBlot 100 100 with state := "menuExpanded" },
    animationQueue := [moveC1, breathC1], isAnimating := true,
    currentSequence := some morphC1, now := 0,
    innerWidth := 800, innerHeight := 600, nextSide := true }

/-- C1: the blot after the first 1000 ms frame (morph sequence finished). -/
def blotC1T1 : SDFBlot :=
  { x := 100, y := 100, targetX := 100, targetY := 100, time := 20,
    state := "menuExpanded", animationSpeed := 0.02, morphFactor := 0.9,
    targetMorphFactor := 0, breathingPhase := 1, pulsePhase := 2,
    wigglePhase := 1.5, breathingIntensity := 0 }

/-- C1: the animator after the first 1000 ms frame. -/
def animC1T1 : BlotAnimator :=
  { blot := blotC1T1,
    animationQueue := [breathC1], isAnimating := true,
    currentSequence := some { moveC1 with startTime := 1000 }, now := 1000,
    innerWidth := 800, innerHeight := 600, nextSide := true }

/-- C1: the blot after the second 1000 ms frame (move sequence finished,
targets snapped to (300,300), morph factor decaying toward 0). -/
def blotC1T2 : SDFBlot :=
  { x := 116, y := 116, targetX := 300, targetY := 300, time := 40,
    state := "menuExpanded", animationSpeed := 0.02, morphFactor := 0.81,
    targetMorphFactor := 0, breathingPhase := 2, pulsePhase := 4,
    wigglePhase := 3, breathingIntensity := 0 }

/-- C1: the animator after the second 1000 ms frame. -/
def animC1T2 : BlotAnimator :=
  { blot := blotC1T2,
    animationQueue := [], isAnimating := true,
    currentSequence := some { breathC1 with startTime := 2000 }, now := 2000,
    innerWidth := 800, innerHeight := 600, nextSide := true }

end

/-! ## Shared helper lemmas -/

theorem le_sqrt_of_sq_le (a x : ℝ) (ha : 0 ≤ a) (hx : a ^ 2 ≤ x) :
    a ≤ Real.sqrt x := by
  have h1 : Real.sqrt (a ^ 2) ≤ Real.sqrt x := Real.sqrt_le_sqrt hx
  rwa [Real.sqrt_sq ha] at h1

theorem sqrt_eq_of_sq (x a : ℝ) (ha : 0 ≤ a) (hx : a ^ 2 = x) :
    Real.sqrt x = a := by
  rw [← hx, Real.sqrt_sq ha]

theorem geom_abs_lt (c r ε : ℝ) (h0 : 0 ≤ r) (h1 : r < 1) (hε : 0 < ε) :
    ∃ N : ℕ, ∀ n, N ≤ n → |c * r ^ n| < ε := by
  rcases eq_or_ne c 0 with hc | hc
  · exact ⟨0, fun n _ => by simp [hc, hε]⟩
  · obtain ⟨N, hN⟩ := exists_pow_lt_of_lt_one (div_pos hε (abs_pos.mpr hc)) h1
    refine ⟨N, fun n hn => ?_⟩
    have hrn : r ^ n ≤ r ^ N := pow_le_pow_of_le_one h0 (le_of_lt h1) hn
    have hr0 : 0 ≤ r ^ n := pow_nonneg h0 n
    have hcc : |c| * (ε / |c|) = ε := by
      field_simp
    calc |c * r ^ n| = |c| * r ^ n := by rw [abs_mul, abs_of_nonneg hr0]
      _ ≤ |c| * r ^ N := mul_le_mul_of_nonneg_left hrn (abs_nonneg c)
      _ < |c| * (ε / |c|) := mul_lt_mul_of_pos_left hN (abs_pos.mpr hc)
      _ = ε := hcc

/-- Closed form of the exponentially smoothed quantities of
`SDFBlot.update` under iteration (targets are constant). -/
theorem fieldIter_closed (b : SDFBlot) (dt : ℝ) (n : ℕ) :
    (fieldIter dt n b).x = b.targetX - (b.targetX - b.x) * (23/25 : ℝ) ^ n ∧
    (fieldIter dt n b).y = b.targetY - (b.targetY - b.y) * (23/25 : ℝ) ^ n ∧
    (fieldIter dt n b).morphFactor
      = b.targetMorphFactor - (b.targetMorphFactor - b.morphFactor) * (9/10 : ℝ) ^ n ∧
    (fieldIter dt n b).targetX = b.targetX ∧
    (fieldIter dt n b).targetY = b.targetY ∧
    (fieldIter dt n b).targetMorphFactor = b.targetMorphFactor := by
  induction n with
  | zero =>
      have h0 : fieldIter dt 0 b = b := rfl
      rw [h0]
      simp only [pow_zero]
      exact ⟨by ring, by ring, by ring, by trivial, by trivial, by trivial⟩
  | succ n ih =>
      obtain ⟨hx, hy, hm, htx, hty, htm⟩ := ih
      have hstep : fieldIter dt (n + 1) b = (fieldIter dt n b).update dt := by
        simp [fieldIter, Function.iterate_succ_apply']
      rw [hstep]
      simp only [SDFBlot.update]
      refine ⟨?_, ?_, ?_, htx, hty, htm⟩
      · rw [hx, htx, pow_succ]; ring_nf
      · rw [hy, hty, pow_succ]; ring_nf
      · rw [hm, htm, pow_succ]; ring_nf

/-! ## C3 -/

/-- C3 (amended): `setState` records the mode string and assigns
`targetMorphFactor` by the table `idle → 0`, `active → 0.3`,
`menu-expanded → 1`; every string outside this table — including the
camel-case `"menuExpanded"` — is a silent no-op on `targetMorphFactor`. -/
theorem c3_setState_table (b : SDFBlot) (m : String) :
    ((b.setState m).state = m) ∧
    (m = "idle" → (b.setState m).targetMorphFactor = 0) ∧
    (m = "active" → (b.setState m).targetMorphFactor = 0.3) ∧
    (m = "menu-expanded" → (b.setState m).targetMorphFactor = 1) ∧
    (m ≠ "idle" → m ≠ "active" → m ≠ "menu-expanded" →
      (b.setState m).targetMorphFactor = b.targetMorphFactor) := by
  unfold SDFBlot.setState
  refine ⟨?_, ?_, ?_, ?_, ?_⟩ <;> intros <;> split_ifs <;> simp_all

/-- C3 counterexample: the claim's table entry `menuExpanded → 1.0` fails on
the code — the switch matches only the hyphenated `"menu-expanded"`. -/
theorem c3_menuExpanded_silent_noop :
    ¬ (((mkBlot 0 0).setState "menuExpanded").targetMorphFactor = 1) := by
  simp only [SDFBlot.setState, mkBlot]
  rw [if_neg (by decide : ¬("menuExpanded" = "idle")),
    if_neg (by decide : ¬("menuExpanded" = "active")),
    if_neg (by decide : ¬("menuExpanded" = "menu-expanded"))]
  norm_num

theorem c3_setState_table_witness :
    ((mkBlot 0 0).setState "active").targetMorphFactor = 0.3 :=
  (c3_setState_table (mkBlot 0 0) "active").2.2.1 rfl

/-! ## C4 -/

/-- C4: each smooth-minimum variant is bounded above by `min a b`, and
agrees with `min a b` exactly once `|a − b|` reaches the variant's effective
blend width (`k` times 4, 6, and `1/(1−√0.5)` respectively). -/
theorem c4_smin_bounds (a b k : ℝ) (hk : 0 < k) :
    sminQuadratic a b k ≤ min a b ∧
    (k * 4 ≤ |a - b| → sminQuadratic a b k = min a b) ∧
    sminCubic a b k ≤ min a b ∧
    (k * 6 ≤ |a - b| → sminCubic a b k = min a b) ∧
    sminCircular a b k ≤ min a b ∧
    (k * (1 / (1 - Real.sqrt 0.5)) ≤ |a - b| → sminCircular a b k = min a b) := by
  have hs2 : Real.sqrt 0.5 ^ 2 = 0.5 := Real.sq_sqrt (by norm_num)
  have hs0 : 0 ≤ Real.sqrt 0.5 := Real.sqrt_nonneg _
  have hslt : Real.sqrt 0.5 < 1 := by nlinarith
  have hden : 0 < 1 - Real.sqrt 0.5 := by linarith
  refine ⟨?_, ?_, ?_, ?_, ?_, ?_⟩
  · simp only [sminQuadratic]
    have h4 : (0:ℝ) < k * 4 := by linarith
    have hh : 0 ≤ max (k * 4 - |a - b|) 0 / (k * 4) :=
      div_nonneg (le_max_right _ _) (le_of_lt h4)
    nlinarith
  · intro hge
    simp only [sminQuadratic]
    rw [max_eq_right (by linarith)]
    ring
  · simp only [sminCubic]
    have h6 : (0:ℝ) < k * 6 := by linarith
    have hh : 0 ≤ max (k * 6 - |a - b|) 0 / (k * 6) :=
      div_nonneg (le_max_right _ _) (le_of_lt h6)
    nlinarith [mul_nonneg (mul_nonneg hh hh) hh]
  · intro hge
    simp only [sminCubic]
    rw [max_eq_right (by linarith)]
    ring
  · simp only [sminCircular]
    have hkc : (0:ℝ) < k * (1 / (1 - Real.sqrt 0.5)) := by positivity
    set kk := k * (1 / (1 - Real.sqrt 0.5)) with hkk
    set h := max (kk - |a - b|) 0 / kk with hdefh
    have hh0 : 0 ≤ h := div_nonneg (le_max_right _ _) (le_of_lt hkc)
    have hsq : Real.sqrt (1 - h * (h - 2)) ≤ 1 + h := by
      have harg : 1 - h * (h - 2) ≤ (1 + h) ^ 2 := by nlinarith
      have h1h : (0:ℝ) ≤ 1 + h := by linarith
      have := Real.sqrt_le_sqrt harg
      rwa [Real.sqrt_sq h1h] at this
    nlinarith
  · intro hge
    simp only [sminCircular]
    rw [max_eq_right (by linarith), zero_div, zero_mul, sub_zero, Real.sqrt_one]
    ring

theorem c4_smin_bounds_witness :
    sminQuadratic 0 100 1 ≤ min 0 100 ∧
    sminQuadratic 0 100 1 = min 0 100 ∧
    sminCubic 0 100 1 = min 0 100 ∧
    sminCircular 0 100 1 = min 0 100 := by
  obtain ⟨h1, h2, h3, h4, h5, h6⟩ := c4_smin_bounds 0 100 1 (by norm_num)
  have habs : |(0:ℝ) - 100| = 100 := by rw [abs_of_nonpos (by norm_num)]; norm_num
  refine ⟨h1, h2 ?_, h4 ?_, h6 ?_⟩
  · rw [habs]; norm_num
  · rw [habs]; norm_num
  · rw [habs]
    have hs2 : Real.sqrt 0.5 ^ 2 = 0.5 := Real.sq_sqrt (by norm_num)
    have hs0 : 0 ≤ Real.sqrt 0.5 := Real.sqrt_nonneg _
    have hslt : Real.sqrt 0.5 ≤ 99/100 := by nlinarith
    have hden : 0 < 1 - Real.sqrt 0.5 := by nlinarith
    rw [one_mul, div_le_iff₀ hden]
    nlinarith

/-! ## C5 -/

/-- C5: iterating `ShapeField.update` with fixed targets drives `x`, `y`
(rate 0.08) and `morphFactor` (rate 0.1) within any positive ε of their
targets in finitely many steps; the distance to the target is monotonically
non-increasing, the iterates never cross to the other side of the target,
and a quantity that starts distinct from its target never reaches it
exactly. -/
theorem c5_exponential_smoothing (b : SDFBlot) (dt : ℝ) :
    (∀ ε, 0 < ε → ∃ N : ℕ, ∀ n, N ≤ n →
       |(fieldIter dt n b).x - b.targetX| < ε ∧
       |(fieldIter dt n b).y - b.targetY| < ε ∧
       |(fieldIter dt n b).morphFactor - b.targetMorphFactor| < ε) ∧
    (∀ n : ℕ,
       |(fieldIter dt (n + 1) b).x - b.targetX| ≤ |(fieldIter dt n b).x - b.targetX| ∧
       |(fieldIter dt (n + 1) b).y - b.targetY| ≤ |(fieldIter dt n b).y - b.targetY| ∧
       |(fieldIter dt (n + 1) b).morphFactor - b.targetMorphFactor|
         ≤ |(fieldIter dt n b).morphFactor - b.targetMorphFactor|) ∧
    (∀ n : ℕ,
       0 ≤ ((fieldIter dt n b).x - b.targetX) * (b.x - b.targetX) ∧
       0 ≤ ((fieldIter dt n b).y - b.targetY) * (b.y - b.targetY) ∧
       0 ≤ ((fieldIter dt n b).morphFactor - b.targetMorphFactor) *
           (b.morphFactor - b.targetMorphFactor)) ∧
    ((b.x ≠ b.targetX → ∀ n, (fieldIter dt n b).x ≠ b.targetX) ∧
     (b.y ≠ b.targetY → ∀ n, (fieldIter dt n b).y ≠ b.targetY) ∧
     (b.morphFactor ≠ b.targetMorphFactor →
       ∀ n, (fieldIter dt n b).morphFactor ≠ b.targetMorphFactor)) := by
  have hdx : ∀ n : ℕ, (fieldIter dt n b).x - b.targetX
      = (b.x - b.targetX) * (23/25 : ℝ) ^ n := by
    intro n
    rw [(fieldIter_closed b dt n).1]
    ring
  have hdy : ∀ n : ℕ, (fieldIter dt n b).y - b.targetY
      = (b.y - b.targetY) * (23/25 : ℝ) ^ n := by
    intro n
    rw [(fieldIter_closed b dt n).2.1]
    ring
  have hdm : ∀ n : ℕ, (fieldIter dt n b).morphFactor - b.targetMorphFactor
      = (b.morphFactor - b.targetMorphFactor) * (9/10 : ℝ) ^ n := by
    intro n
    rw [(fieldIter_closed b dt n).2.2.1]
    ring
  have hmono : ∀ (c r : ℝ), 0 ≤ r → r ≤ 1 → ∀ n : ℕ,
      |c * r ^ (n + 1)| ≤ |c * r ^ n| := by
    intro c r h0 h1 n
    rw [abs_mul, abs_mul, abs_pow, abs_pow, abs_of_nonneg h0]
    exact mul_le_mul_of_nonneg_left
      (pow_le_pow_of_le_one h0 h1 (by omega)) (abs_nonneg c)
  have hside : ∀ (c r : ℝ), 0 ≤ r → ∀ n : ℕ, 0 ≤ c * r ^ n * c := by
    intro c r h0 n
    have hq : c * r ^ n * c = c ^ 2 * r ^ n := by ring
    rw [hq]
    positivity
  have hnz : ∀ (c r : ℝ), c ≠ 0 → r ≠ 0 → ∀ n : ℕ, c * r ^ n ≠ 0 := by
    intro c r hc hr n
    exact mul_ne_zero hc (pow_ne_zero n hr)
  refine ⟨?_, ?_, ?_, ?_, ?_, ?_⟩
  · intro ε hε
    obtain ⟨Nx, hNx⟩ := geom_abs_lt (b.x - b.targetX) (23/25) ε
      (by norm_num) (by norm_num) hε
    obtain ⟨Ny, hNy⟩ := geom_abs_lt (b.y - b.targetY) (23/25) ε
      (by norm_num) (by norm_num) hε
    obtain ⟨Nm, hNm⟩ := geom_abs_lt (b.morphFactor - b.targetMorphFactor) (9/10) ε
      (by norm_num) (by norm_num) hε
    refine ⟨max Nx (max Ny Nm), fun n hn => ⟨?_, ?_, ?_⟩⟩
    · rw [hdx n]
      exact hNx n (le_trans (le_max_left _ _) hn)
    · rw [hdy n]
      exact hNy n (le_trans (le_trans (le_max_left _ _) (le_max_right _ _)) hn)
    · rw [hdm n]
      exact hNm n (le_trans (le_trans (le_max_right _ _) (le_max_right _ _)) hn)
  · intro n
    refine ⟨?_, ?_, ?_⟩
    · rw [hdx n, hdx (n + 1)]
      exact hmono _ _ (by norm_num) (by norm_num) n
    · rw [hdy n, hdy (n + 1)]
      exact hmono _ _ (by norm_num) (by norm_num) n
    · rw [hdm n, hdm (n + 1)]
      exact hmono _ _ (by norm_num) (by norm_num) n
  · intro n
    refine ⟨?_, ?_, ?_⟩
    · rw [hdx n]
      exact hside _ _ (by norm_num) n
    · rw [hdy n]
      exact hside _ _ (by norm_num) n
    · rw [hdm n]
      exact hside _ _ (by norm_num) n
  · intro hne n hcon
    have h0 : (b.x - b.targetX) * (23/25 : ℝ) ^ n = 0 := by
      rw [← hdx n, hcon, sub_self]
    exact hnz _ _ (sub_ne_zero.mpr hne) (by norm_num) n h0
  · intro hne n hcon
    have h0 : (b.y - b.targetY) * (23/25 : ℝ) ^ n = 0 := by
      rw [← hdy n, hcon, sub_self]
    exact hnz _ _ (sub_ne_zero.mpr hne) (by norm_num) n h0
  · intro hne n hcon
    have h0 : (b.morphFactor - b.targetMorphFactor) * (9/10 : ℝ) ^ n = 0 := by
      rw [← hdm n, hcon, sub_self]
    exact hnz _ _ (sub_ne_zero.mpr hne) (by norm_num) n h0

theorem c5_exponential_smoothing_witness :
    (∃ N : ℕ, ∀ n, N ≤ n →
       |(fieldIter 1 n blotC5).x - blotC5.targetX| < 1/10 ∧
       |(fieldIter 1 n blotC5).y - blotC5.targetY| < 1/10 ∧
       |(fieldIter 1 n blotC5).morphFactor - blotC5.targetMorphFactor| < 1/10) ∧
    (fieldIter 1 5 blotC5).x ≠ blotC5.targetX := by
  refine ⟨(c5_exponential_smoothing blotC5 1).1 (1/10) (by norm_num), ?_⟩
  exact (c5_exponential_smoothing blotC5 1).2.2.2.1
    (by norm_num [blotC5, mkBlot]) 5

/-! ## C7 -/

/-- C7 (amended): for a move sequence with at least two waypoints, the move
update at progress 1 writes exactly the final waypoint's coordinates to the
field's target position.  (With fewer than two waypoints the source returns
early and writes nothing — see the counterexample.) -/
theorem c7_move_final_snap (cs : AnimSequence) (b : SDFBlot)
    (h : 2 ≤ cs.waypoints.length) :
    (updateMoveAnimation cs b 1).targetX = (cs.waypoints.getLastD (0, 0)).1 ∧
    (updateMoveAnimation cs b 1).targetY = (cs.waypoints.getLastD (0, 0)).2 := by
  have h2 : ¬ (cs.waypoints.length < 2) := by omega
  have hfloor : ⌊(1 : ℝ) * ((cs.waypoints.length : ℝ) - 1)⌋
      = (cs.waypoints.length : ℤ) - 1 := by
    rw [one_mul,
      show ((cs.waypoints.length : ℝ) - 1)
        = ((cs.waypoints.length : ℝ)) - ((1 : ℤ) : ℝ) by norm_num,
      Int.floor_sub_int, Int.floor_natCast]
  simp only [updateMoveAnimation, if_neg h2, hfloor]
  rw [if_pos (by push_cast; linarith)]
  exact ⟨rfl, rfl⟩

/-- C7 counterexample: a single-waypoint move sequence at progress 1 does
not write the waypoint to the target position (the guard returns early). -/
theorem c7_single_waypoint_no_write :
    ¬ ((updateMoveAnimation moveSeqC7 (mkBlot 0 0) 1).targetX = 5 ∧
       (updateMoveAnimation moveSeqC7 (mkBlot 0 0) 1).targetY = 7) := by
  norm_num [updateMoveAnimation, moveSeqC7, emptySeq, mkBlot]

theorem c7_move_final_snap_witness :
    (updateMoveAnimation moveSeqC7b (mkBlot 0 0) 1).targetX = 5 ∧
    (updateMoveAnimation moveSeqC7b (mkBlot 0 0) 1).targetY = 7 := by
  have h := c7_move_final_snap moveSeqC7b (mkBlot 0 0)
    (by norm_num [moveSeqC7b, emptySeq])
  simpa [moveSeqC7b, emptySeq] using h

/-! ## C8 -/

/-- Any single `setState` or `update` step preserves the `[0,1]` bounds on
`morphFactor` and `targetMorphFactor`. -/
theorem applyFieldOps_morph_bounds (b : SDFBlot) (ops : List FieldOp)
    (h1 : 0 ≤ b.morphFactor ∧ b.morphFactor ≤ 1)
    (h2 : 0 ≤ b.targetMorphFactor ∧ b.targetMorphFactor ≤ 1) :
    (0 ≤ (applyFieldOps b ops).morphFactor ∧ (applyFieldOps b ops).morphFactor ≤ 1) ∧
    (0 ≤ (applyFieldOps b ops).targetMorphFactor ∧
      (applyFieldOps b ops).targetMorphFactor ≤ 1) := by
  induction ops generalizing b with
  | nil => exact ⟨h1, h2⟩
  | cons op rest ih =>
      have hstep : applyFieldOps b (op :: rest) = applyFieldOps (applyFieldOp b op) rest := rfl
      rw [hstep]
      apply ih
      · cases op with
        | setMode s =>
            simp only [applyFieldOp, SDFBlot.setState]
            split_ifs <;> exact h1
        | tick dt =>
            simp only [applyFieldOp, SDFBlot.update]
            obtain ⟨ha, hb⟩ := h1
            obtain ⟨hc, hd⟩ := h2
            constructor <;> nlinarith
      · cases op with
        | setMode s =>
            simp only [applyFieldOp, SDFBlot.setState]
            split_ifs <;> first
              | exact h2
              | exact ⟨by norm_num, by norm_num⟩
        | tick dt =>
            exact h2

/-- C8: starting from `morphFactor = 0` and `targetMorphFactor = 0`, any
interleaving of `setState` calls and `update` ticks keeps both quantities in
`[0,1]` (the theorem holds for arbitrary mode strings, hence in particular
for the valid modes). -/
theorem c8_morph_invariant (b : SDFBlot) (ops : List FieldOp)
    (h1 : b.morphFactor = 0) (h2 : b.targetMorphFactor = 0) :
    (0 ≤ (applyFieldOps b ops).morphFactor ∧ (applyFieldOps b ops).morphFactor ≤ 1) ∧
    (0 ≤ (applyFieldOps b ops).targetMorphFactor ∧
      (applyFieldOps b ops).targetMorphFactor ≤ 1) :=
  applyFieldOps_morph_bounds b ops (by rw [h1]; norm_num) (by rw [h2]; norm_num)

theorem c8_morph_invariant_witness :
    (0 ≤ (applyFieldOps (mkBlot 0 0) [FieldOp.setMode "active", FieldOp.tick 16,
        FieldOp.setMode "menu-expanded", FieldOp.tick 16]).morphFactor ∧
      (applyFieldOps (mkBlot 0 0) [FieldOp.setMode "active", FieldOp.tick 16,
        FieldOp.setMode "menu-expanded", FieldOp.tick 16]).morphFactor ≤ 1) ∧
    (0 ≤ (applyFieldOps (mkBlot 0 0) [FieldOp.setMode "active", FieldOp.tick 16,
        FieldOp.setMode "menu-expanded", FieldOp.tick 16]).targetMorphFactor ∧
      (applyFieldOps (mkBlot 0 0) [FieldOp.setMode "active", FieldOp.tick 16,
        FieldOp.setMode "menu-expanded", FieldOp.tick 16]).targetMorphFactor ≤ 1) :=
  c8_morph_invariant (mkBlot 0 0) _ rfl rfl

/-! ## Animator invariant lemmas shared by C9, C10 and C1 -/

/-- `update` never retires a `continuous` sequence: the active slot, the
`isAnimating` flag and the queue are untouched. -/
theorem update_continuous_keeps (a : BlotAnimator) (s : AnimSequence) (dt : ℝ)
    (ha : a.currentSequence = some s) (hc : s.continuous = true) :
    (a.update dt).currentSequence = some s ∧
    (a.update dt).isAnimating = a.isAnimating ∧
    (a.update dt).animationQueue = a.animationQueue := by
  simp only [BlotAnimator.update, ha, hc]
  split_ifs <;> simp_all

/-- `queueAnimation` only promotes from the queue when nothing is
animating. -/
theorem queueAnimation_animating_keeps (a : BlotAnimator) (sq : AnimSequence)
    (p : ℝ) (hA : a.isAnimating = true) :
    (queueAnimation a sq p).currentSequence = a.currentSequence ∧
    (queueAnimation a sq p).isAnimating = true := by
  simp [queueAnimation, hA]

/-- A tick of an active breathing sequence rewrites only the field's
`breathingIntensity`. -/
theorem update_breathing_blot (a : BlotAnimator) (s : AnimSequence) (dt : ℝ)
    (ha : a.currentSequence = some s) (ht : s.type = "breathing")
    (hc : s.continuous = true) :
    (a.update dt).blot = { a.blot with breathingIntensity := s.intensity } := by
  have h1 : ¬(("breathing" : String) = "move") := by decide
  have h2 : ¬(("breathing" : String) = "morph") := by decide
  simp [BlotAnimator.update, ha, ht, hc, h1, h2, updateBreathingAnimation]

/-- A full frame (sequencer tick then field tick) under an active breathing
sequence: the sequence stays active, targets are unchanged, and the morph
factor takes one exponential-smoothing step toward its target. -/
theorem combinedTick_breathing (a : BlotAnimator) (s : AnimSequence) (dt : ℝ)
    (ha : a.currentSequence = some s) (ht : s.type = "breathing")
    (hc : s.continuous = true) :
    (combinedTick dt a).currentSequence = some s ∧
    (combinedTick dt a).blot.targetMorphFactor = a.blot.targetMorphFactor ∧
    (combinedTick dt a).blot.morphFactor
      = a.blot.morphFactor + (a.blot.targetMorphFactor - a.blot.morphFactor) * 0.1 ∧
    (combinedTick dt a).blot.targetX = a.blot.targetX ∧
    (combinedTick dt a).blot.targetY = a.blot.targetY := by
  have hb := update_breathing_blot a s dt ha ht hc
  have hk := update_continuous_keeps a s dt ha hc
  refine ⟨?_, ?_, ?_, ?_, ?_⟩ <;>
    simp [combinedTick, SDFBlot.update, hb, hk.1]

/-! ## C9 -/

/-- C9: once a continuous sequence occupies the active slot, no interleaving
of `update` ticks and `queueAnimation` calls (any priorities) ever retires it
or promotes anything else into the active slot. -/
theorem c9_continuous_never_retired (a : BlotAnimator) (s : AnimSequence)
    (ops : List AnimOp) (ha : a.currentSequence = some s)
    (hc : s.continuous = true) (hA : a.isAnimating = true) :
    (applyAnimOps a ops).currentSequence = some s ∧
    (applyAnimOps a ops).isAnimating = true := by
  induction ops generalizing a with
  | nil => exact ⟨ha, hA⟩
  | cons op rest ih =>
      have hstep : applyAnimOps a (op :: rest)
          = applyAnimOps (applyAnimOp a op) rest := rfl
      rw [hstep]
      cases op with
      | tick dt =>
          obtain ⟨h1, h2, _⟩ := update_continuous_keeps a s dt ha hc
          refine ih _ h1 ?_
          show (a.update dt).isAnimating = true
          rw [h2, hA]
      | enq sq p =>
          obtain ⟨h1, h2⟩ := queueAnimation_animating_keeps a sq p hA
          refine ih _ ?_ h2
          show (queueAnimation a sq p).currentSequence = some s
          rw [h1, ha]

theorem c9_continuous_never_retired_witness :
    (applyAnimOps animC9 [AnimOp.enq (morphSeqOf 100 1) 100,
        AnimOp.tick 5000]).currentSequence = some breathC9q ∧
    (applyAnimOps animC9 [AnimOp.enq (morphSeqOf 100 1) 100,
        AnimOp.tick 5000]).isAnimating = true := by
  apply c9_continuous_never_retired animC9 breathC9q _ ?_ rfl ?_
  · simp [animC9, animBase, mkAnimator, queueAnimation, playNextAnimation,
      breathC9q, breathC9, createBreathingSequence, emptySeq,
      List.insertionSort, List.orderedInsert]
  · simp [animC9, animBase, mkAnimator, queueAnimation, playNextAnimation,
      List.insertionSort, List.orderedInsert]

/-! ## C10 -/

/-- C10: a breathing tick writes only `breathingIntensity`; neither the
field evaluator nor the rasterizer reads it, so the rendered pixel output
after any number of breathing ticks equals the output with no breathing
sequence active. -/
theorem c10_breathing_render_invariant (a : BlotAnimator) (s : AnimSequence)
    (dt px py : ℝ) (ha : a.currentSequence = some s)
    (ht : s.type = "breathing") (hc : s.continuous = true) :
    (a.update dt).blot = { a.blot with breathingIntensity := s.intensity } ∧
    (∀ (b : SDFBlot) (v : ℝ),
      renderPixel { b with breathingIntensity := v } px py = renderPixel b px py) ∧
    (∀ n : ℕ, renderPixel (((fun c => BlotAnimator.update c dt)^[n]) a).blot px py
      = renderPixel a.blot px py) := by
  have hrp : ∀ (b : SDFBlot) (v : ℝ),
      renderPixel { b with breathingIntensity := v } px py = renderPixel b px py :=
    fun b v => rfl
  refine ⟨update_breathing_blot a s dt ha ht hc, hrp, ?_⟩
  have hiter : ∀ n : ℕ,
      ((fun c => BlotAnimator.update c dt)^[n] a).currentSequence = some s ∧
      (((fun c => BlotAnimator.update c dt)^[n] a).blot = a.blot ∨
       ((fun c => BlotAnimator.update c dt)^[n] a).blot
         = { a.blot with breathingIntensity := s.intensity }) := by
    intro n
    induction n with
    | zero => exact ⟨ha, Or.inl rfl⟩
    | succ n ih =>
        obtain ⟨h1, h2⟩ := ih
        have hstep : (fun c => BlotAnimator.update c dt)^[n + 1] a
            = BlotAnimator.update ((fun c => BlotAnimator.update c dt)^[n] a) dt :=
          Function.iterate_succ_apply' _ _ _
        have hb := update_breathing_blot _ s dt h1 ht hc
        have hk := update_continuous_keeps _ s dt h1 hc
        rw [hstep]
        refine ⟨hk.1, Or.inr ?_⟩
        rw [hb]
        rcases h2 with h2 | h2 <;> rw [h2]
  intro n
  rcases (hiter n).2 with h | h <;> rw [h]
  exact hrp a.blot s.intensity

theorem c10_breathing_render_invariant_witness :
    (animC9.update 16).blot
        = { animC9.blot with breathingIntensity := breathC9q.intensity } ∧
    (∀ (b : SDFBlot) (v : ℝ),
      renderPixel { b with breathingIntensity := v } 0 0 = renderPixel b 0 0) ∧
    (∀ n : ℕ, renderPixel (((fun c => BlotAnimator.update c 16)^[n]) animC9).blot 0 0
      = renderPixel animC9.blot 0 0) := by
  apply c10_breathing_render_invariant animC9 breathC9q 16 0 0 ?_ rfl rfl
  simp [animC9, animBase, mkAnimator, queueAnimation, playNextAnimation,
    breathC9q, breathC9, createBreathingSequence, emptySeq,
    List.insertionSort, List.orderedInsert]

/-! ## C1 -/

/-- Evaluation of `transitionToState("menuExpanded", 300, 300, 0, 0)` on the
C1 scenario: the morph sequence is active, move and breathing are queued,
the mode label is updated — but `setState` matched no case, so
`targetMorphFactor` is still 0. -/
theorem c1_eval_transition : animC1x = animC1E := by
  have hm : ¬ (Real.sqrt 20000 < (100 : ℝ)) :=
    not_lt.mpr (le_sqrt_of_sq_le 100 20000 (by norm_num) (by norm_num))
  simp [animC1x, animC1, animC1E, transitionToState, createMorphSequence,
    morphValues, createMoveSequence, createBreathingSequence, animationPresets,
    queueAnimation, playNextAnimation, mkAnimator, mkBlot,
    SDFBlot.setState, List.insertionSort, List.orderedInsert,
    morphC1, moveC1, breathC1, emptySeq]
  norm_num [hm]

/-- First 1000 ms frame of the C1 scenario: the morph sequence writes
`morphFactor = 1` and retires; the field tick then decays `morphFactor` to
0.9 because `targetMorphFactor` is still 0. -/
theorem c1_eval_tick1 : combinedTick 1000 animC1E = animC1T1 := by
  simp [animC1E, animC1T1, blotC1T1, combinedTick, BlotAnimator.update,
    SDFBlot.update, easingFunctions, updateMorphAnimation, updateMoveAnimation,
    updateBreathingAnimation, playNextAnimation, morphC1, moveC1, breathC1,
    emptySeq, mkBlot, min_def]
  norm_num

/-- Second 1000 ms frame of the C1 scenario: the move sequence snaps the
targets to (300, 300) and retires; the breathing sequence becomes active;
`morphFactor` decays further to 0.81. -/
theorem c1_eval_tick2 : combinedTick 1000 animC1T1 = animC1T2 := by
  simp [animC1T1, animC1T2, blotC1T1, blotC1T2, combinedTick,
    BlotAnimator.update, SDFBlot.update, easingFunctions, updateMorphAnimation,
    updateMoveAnimation, updateBreathingAnimation, SDFBlot.moveTo,
    playNextAnimation, morphC1, moveC1, breathC1, emptySeq, mkBlot, min_def,
    Int.floor_one]
  norm_num

/-- C1 (the code at the claim's failing input): `transitionToState
("menuExpanded", 300, 300, 0, 0)` from a field at (100,100) with morph 0 and
mode idle sets the mode label but leaves `targetMorphFactor = 0`, because
`setState` switches on `"menu-expanded"` while the animator passes
`"menuExpanded"`.  After the morph and move sequences expire the position
target is exactly (300, 300) — so the position does converge — but
`morphFactor` is `0.81 · 0.9^n` after `n` further frames: it converges to 0,
not to 1.0. -/
theorem c1_menuExpanded_transition_morph_decays :
    animC1x.blot.state = "menuExpanded" ∧
    animC1x.blot.targetMorphFactor = 0 ∧
    animC1y.blot.targetX = 300 ∧
    animC1y.blot.targetY = 300 ∧
    animC1y.blot.targetMorphFactor = 0 ∧
    (∀ n : ℕ, ((combinedTick 1000)^[n] animC1y).blot.morphFactor
        = 0.81 * (9/10 : ℝ) ^ n) := by
  have hy : animC1y = animC1T2 := by
    rw [animC1y, c1_eval_transition, c1_eval_tick1, c1_eval_tick2]
  have hbreath : ∀ n : ℕ,
      ((combinedTick 1000)^[n] animC1T2).currentSequence
        = some { breathC1 with startTime := 2000 } ∧
      ((combinedTick 1000)^[n] animC1T2).blot.targetMorphFactor = 0 ∧
      ((combinedTick 1000)^[n] animC1T2).blot.morphFactor
        = 0.81 * (9/10 : ℝ) ^ n := by
    intro n
    induction n with
    | zero =>
        refine ⟨rfl, rfl, ?_⟩
        show animC1T2.blot.morphFactor = _
        simp [animC1T2, blotC1T2]
    | succ n ih =>
        obtain ⟨h1, h2, h3⟩ := ih
        have hstep : (combinedTick 1000)^[n + 1] animC1T2
            = combinedTick 1000 ((combinedTick 1000)^[n] animC1T2) :=
          Function.iterate_succ_apply' _ _ _
        have hct := combinedTick_breathing _ { breathC1 with startTime := 2000 }
          1000 h1 (by simp [breathC1, emptySeq]) (by simp [breathC1, emptySeq])
        rw [hstep]
        refine ⟨hct.1, ?_, ?_⟩
        · rw [hct.2.1, h2]
        · rw [hct.2.2.1, h2, h3, pow_succ]
          ring
  refine ⟨?_, ?_, ?_, ?_, ?_, ?_⟩
  · rw [c1_eval_transition]; rfl
  · rw [c1_eval_transition]; rfl
  · rw [hy]; rfl
  · rw [hy]; rfl
  · rw [hy]; rfl
  · intro n
    rw [hy]
    exact (hbreath n).2.2

/-! ## C2 -/

/-- After enqueuing priorities 5, 10, 1 into an idle animator, the
priority-5 sequence (the first enqueued) is already active; the queue holds
the other two in descending priority order. -/
theorem c2_eval_e3 : c2e3 =
    { blot := mkBlot 0 0, animationQueue := [mq10, mq1], isAnimating := true,
      currentSequence := some mq5, now := 0,
      innerWidth := 800, innerHeight := 600, nextSide := true } := by
  simp [c2e3, queueAnimation, animBase, mkAnimator, playNextAnimation,
    List.insertionSort, List.orderedInsert, mq5, mq10, mq1, morphSeqOf,
    emptySeq]

/-- First drain step: the priority-5 sequence completes and the priority-10
sequence is promoted. -/
theorem c2_eval_u1 : c2u1 =
    { blot := { mkBlot 0 0 with morphFactor := 1 },
      animationQueue := [mq1], isAnimating := true,
      currentSequence := some { mq10 with startTime := 200 }, now := 200,
      innerWidth := 800, innerHeight := 600, nextSide := true } := by
  rw [c2u1, c2_eval_e3]
  simp [BlotAnimator.update, easingFunctions, updateMorphAnimation,
    playNextAnimation, mq5, mq10, mq1, morphSeqOf, emptySeq, mkBlot, min_def]
  norm_num

/-- Second drain step: the priority-10 sequence completes and the priority-1
sequence is promoted. -/
theorem c2_eval_u2 : c2u2 =
    { blot := { mkBlot 0 0 with morphFactor := 2 },
      animationQueue := [], isAnimating := true,
      currentSequence := some { mq1 with startTime := 400 }, now := 400,
      innerWidth := 800, innerHeight := 600, nextSide := true } := by
  rw [c2u2, c2_eval_u1]
  simp [BlotAnimator.update, easingFunctions, updateMorphAnimation,
    playNextAnimation, mq5, mq10, mq1, morphSeqOf, emptySeq, mkBlot, min_def]
  norm_num

/-- FIFO trace: the priority-7 filler is active and the two priority-5
sequences sit in the queue in insertion order (the stable sort keeps them
FIFO). -/
theorem c2_eval_g3 : c2g3 =
    { blot := mkBlot 0 0, animationQueue := [mqA, mqB], isAnimating := true,
      currentSequence := some mqFill, now := 0,
      innerWidth := 800, innerHeight := 600, nextSide := true } := by
  simp [c2g3, queueAnimation, animBase, mkAnimator, playNextAnimation,
    List.insertionSort, List.orderedInsert, mqFill, mqA, mqB, morphSeqOf,
    emptySeq]

/-- FIFO trace, first drain step: the first-enqueued priority-5 sequence is
promoted. -/
theorem c2_eval_w1 : c2w1 =
    { blot := { mkBlot 0 0 with morphFactor := 9 },
      animationQueue := [mqB], isAnimating := true,
      currentSequence := some { mqA with startTime := 200 }, now := 200,
      innerWidth := 800, innerHeight := 600, nextSide := true } := by
  rw [c2w1, c2_eval_g3]
  simp [BlotAnimator.update, easingFunctions, updateMorphAnimation,
    playNextAnimation, mqFill, mqA, mqB, morphSeqOf, emptySeq, mkBlot, min_def]
  norm_num

/-- FIFO trace, second drain step: the second-enqueued priority-5 sequence
is promoted. -/
theorem c2_eval_w2 : c2w2 =
    { blot := { mkBlot 0 0 with morphFactor := 1 },
      animationQueue := [], isAnimating := true,
      currentSequence := some { mqB with startTime := 400 }, now := 400,
      innerWidth := 800, innerHeight := 600, nextSide := true } := by
  rw [c2w2, c2_eval_w1]
  simp [BlotAnimator.update, easingFunctions, updateMorphAnimation,
    playNextAnimation, mqFill, mqA, mqB, morphSeqOf, emptySeq, mkBlot, min_def]
  norm_num

/-- C2 counterexample: enqueuing priorities 5, 10, 1 in that order and
draining does NOT activate them in the order 10, 5, 1 — the priority-5
sequence is promoted immediately by its own enqueue while the animator is
idle. -/
theorem c2_claimed_drain_order_false :
    ¬ ([c2e3.currentSequence.map AnimSequence.priority,
        c2u1.currentSequence.map AnimSequence.priority,
        c2u2.currentSequence.map AnimSequence.priority]
        = [some 10, some 5, some 1]) := by
  rw [c2_eval_e3, c2_eval_u1, c2_eval_u2]
  simp [mq5, mq10, mq1, morphSeqOf, emptySeq]

/-- C2 (amended): the activation order for enqueues with priorities 5, 10, 1
into an idle animator is 5, 10, 1 (the first enqueue is promoted
immediately; the rest drain in descending priority), and two sequences
enqueued with equal priority are activated in FIFO insertion order. -/
theorem c2_priority_queue_activation_order :
    [c2e3.currentSequence.map AnimSequence.priority,
     c2u1.currentSequence.map AnimSequence.priority,
     c2u2.currentSequence.map AnimSequence.priority]
      = [some 5, some 10, some 1] ∧
    c2g3.currentSequence.map AnimSequence.toValue = some 9 ∧
    c2w1.currentSequence.map AnimSequence.toValue = some 1 ∧
    c2w2.currentSequence.map AnimSequence.toValue = some 2 := by
  rw [c2_eval_e3, c2_eval_u1, c2_eval_u2, c2_eval_g3, c2_eval_w1, c2_eval_w2]
  simp [mq5, mq10, mq1, mqFill, mqA, mqB, morphSeqOf, emptySeq]

/-! ## C6 -/

/-- Evaluation of `createMoveSequence(200, 0, 50, 0)` from a blot at the
origin: the detour condition fires (avoid distance 50 < 100, travel 200 >
50), the perpendicular of the start→avoid bearing points straight up or
down, and the un-clamped detour point (50, ±120) is clamped into the
viewport box. -/
theorem seqC6_waypoints (W H : ℝ) (side : Bool) :
    (seqC6 W H side).waypoints
      = [(0, 0),
         (max 60 (min (W - 60) 50),
          max 60 (min (H - 60) (if side then (120 : ℝ) else -120))),
         (200, 0)] := by
  have h25 : Real.sqrt 2500 = (50 : ℝ) :=
    sqrt_eq_of_sq 2500 50 (by norm_num) (by norm_num)
  have h40 : Real.sqrt 40000 = (200 : ℝ) :=
    sqrt_eq_of_sq 40000 200 (by norm_num) (by norm_num)
  have hat : atan2 (0 : ℝ) 50 = 0 := by
    norm_num [atan2, Real.arctan_zero]
  cases side <;>
  · simp [seqC6, createMoveSequence, animC6, mkAnimator, mkBlot, emptySeq, hat]
    norm_num [h25, h40, Real.cos_pi_div_two, Real.sin_pi_div_two,
      Real.cos_neg, Real.sin_neg]

/-- C6 (amended): the generated waypoint list has length 3; its middle
waypoint is the per-axis clamp to `[60, W−60] × [60, H−60]` of the point at
distance 120 from the avoid point (50, 0) along the perpendicular to the
start→avoid bearing; the clamped waypoint lies within the viewport bounds
(but, unlike the claim, it is the *un-clamped* point that lies at distance
120 — clamping can move it off that circle). -/
theorem c6_avoidance_detour (W H : ℝ) (side : Bool)
    (hW : 120 ≤ W) (hH : 120 ≤ H) :
    (seqC6 W H side).waypoints.length = 3 ∧
    (seqC6 W H side).waypoints.getD 1 (0, 0)
      = (max 60 (min (W - 60) 50),
         max 60 (min (H - 60) (if side then (120 : ℝ) else -120))) ∧
    Real.sqrt (((50 : ℝ) - 50) ^ 2 + ((if side then (120 : ℝ) else -120) - 0) ^ 2)
      = 120 ∧
    (60 ≤ ((seqC6 W H side).waypoints.getD 1 (0, 0)).1 ∧
     ((seqC6 W H side).waypoints.getD 1 (0, 0)).1 ≤ W - 60 ∧
     60 ≤ ((seqC6 W H side).waypoints.getD 1 (0, 0)).2 ∧
     ((seqC6 W H side).waypoints.getD 1 (0, 0)).2 ≤ H - 60) := by
  have hw := seqC6_waypoints W H side
  rw [hw]
  refine ⟨rfl, rfl, ?_, ?_, ?_, ?_, ?_⟩
  · cases side <;>
    · norm_num
      exact sqrt_eq_of_sq _ 120 (by norm_num) (by norm_num)
  · exact le_max_left _ _
  · exact max_le (by linarith) (min_le_left _ _)
  · exact le_max_left _ _
  · exact max_le (by linarith) (min_le_left _ _)

/-- C6 counterexample: with an 800×600 viewport and the upward random side,
the clamped middle waypoint is (60, 120), which is NOT at distance 120 from
the avoid point (50, 0) — clamping moved it off the 120-circle. -/
theorem c6_clamped_waypoint_off_circle :
    ¬ (Real.sqrt ((((seqC6 800 600 true).waypoints.getD 1 (0, 0)).1 - 50) ^ 2 +
        (((seqC6 800 600 true).waypoints.getD 1 (0, 0)).2 - 0) ^ 2) = 120) := by
  have hmid : (seqC6 800 600 true).waypoints.getD 1 (0, 0)
      = ((60 : ℝ), (120 : ℝ)) := by
    rw [seqC6_waypoints 800 600 true]
    norm_num [List.getD, min_def, max_def]
  rw [hmid]
  intro hcon
  have h2 : ((60 : ℝ) - 50) ^ 2 + ((120 : ℝ) - 0) ^ 2 = 120 ^ 2 := by
    rw [← Real.sq_sqrt
      (show (0 : ℝ) ≤ ((60 : ℝ) - 50) ^ 2 + ((120 : ℝ) - 0) ^ 2 by positivity),
      hcon]
  norm_num at h2

theorem c6_avoidance_detour_witness :
    (seqC6 800 600 true).waypoints.length = 3 ∧
    (seqC6 800 600 true).waypoints.getD 1 (0, 0)
      = (max 60 (min (800 - 60) 50),
         max 60 (min (600 - 60) (if true then (120 : ℝ) else -120))) ∧
    Real.sqrt (((50 : ℝ) - 50) ^ 2 + ((if true then (120 : ℝ) else -120) - 0) ^ 2)
      = 120 ∧
    (60 ≤ ((seqC6 800 600 true).waypoints.getD 1 (0, 0)).1 ∧
     ((seqC6 800 600 true).waypoints.getD 1 (0, 0)).1 ≤ 800 - 60 ∧
     60 ≤ ((seqC6 800 600 true).waypoints.getD 1 (0, 0)).2 ∧
     ((seqC6 800 600 true).waypoints.getD 1 (0, 0)).2 ≤ 600 - 60) :=
  c6_avoidance_detour 800 600 true (by norm_num) (by norm_num)
